/-
Verification of the metrics-instrumented CRUD request pipeline of the
gin-prometheus-grafana bookstore service: a shallow embedding of the
entity model (internal/models/book.go), the persistence gateway
(internal/repository/book_repository.go), the request handlers
(internal/handlers/book_handler.go) and the Prometheus HTTP middleware,
together with theorems settling the specification's claims.

Modelling conventions:
- Timestamps (`time.Time`) are integers (an instant on a linear clock);
  the Go zero value of `time.Time` is modelled as `0`.
- `float64` prices are modelled as rationals `Rat` (JSON numbers; the
  claims only compare, copy and test them against zero).
- Go `int` identifiers are modelled as unbounded `Int` (no request in
  scope approaches the 64-bit range).
- The durable store is modelled in memory: a list of rows plus the
  serial counter for the next identity. Per-statement storage faults
  (connectivity loss) cannot arise in the pure model; handler behaviour
  on such faults is stated on the respond stage, which takes the
  gateway's `Except` result as input.
- Every gateway method also returns the list of metric events it emits
  (`db_query_total` increments and `db_query_duration_seconds`
  observations), in program order; a Go `defer` runs at function exit,
  so the deferred duration observation is the last event.
-/
import Mathlib

namespace Bookstore

/-- The catalog item (Go struct `models.Book`), one row of the `books`
table: identity, title, author, ISBN, price, published-at, created-at,
updated-at. -/
structure Book where
  id : Int
  title : String
  author : String
  isbn : String
  price : Rat
  publishedAt : Int
  createdAt : Int
  updatedAt : Int
deriving DecidableEq, Repr

/-- Go struct `models.CreateBookRequest`: the decoded JSON body of a
create request. All fields are non-pointer, so a field absent from the
JSON is left at its Go zero value ("" for strings, 0 for float64, the
zero time for time.Time). -/
structure CreateBookRequest where
  title : String
  author : String
  isbn : String
  price : Rat
  publishedAt : Int
deriving DecidableEq, Repr

/-- Go struct `models.UpdateBookRequest`: the sparse update body; every
field is a pointer (`*string` etc.), `none` meaning the key was absent
from the JSON. -/
structure UpdateBookRequest where
  title : Option String
  author : Option String
  isbn : Option String
  price : Option Rat
  publishedAt : Option Int
deriving DecidableEq, Repr

/-- Validation of a create request, the semantics of the struct tags
`binding:"required"` / `binding:"required,min=0"` under gin's
`ShouldBindJSON` (go-playground/validator): `required` holds iff the
field is not its type's zero value (non-empty string, non-zero number,
non-zero time), and `min=0` holds iff the number is ≥ 0. -/
def CreateBookRequest.bindOK (r : CreateBookRequest) : Bool :=
  (r.title != "") && (r.author != "") && (r.isbn != "") &&
  (r.price != 0 && 0 ≤ r.price) && (r.publishedAt != 0)

/-- The typed outcome of a gateway call: `notFound` (`sql.ErrNoRows` /
zero rows affected, reported as "book with id %d not found") versus any
other store-layer failure. -/
inductive RepoError where
  | notFound
  | storageError
deriving DecidableEq, Repr

/-- Operation label of the repository metrics (`operation` label of
`db_query_total` / `db_query_duration_seconds`). -/
inductive Op where
  | create
  | select
  | select_all
  | update
  | delete
deriving DecidableEq, Repr

/-- Outcome label (`status` label of `db_query_total`). -/
inductive Outcome where
  | success
  | not_found
  | error
deriving DecidableEq, Repr

/-- A metric event emitted by the repository: a `db_query_total`
counter increment labelled (operation, outcome) — the `table` label is
always "books" and is omitted — or a `db_query_duration_seconds`
observation labelled by operation. -/
inductive MetricEvent where
  | incTotal (op : Op) (outcome : Outcome)
  | observeDuration (op : Op)
deriving DecidableEq, Repr

/-- The durable store: the `books` table rows plus the serial sequence
backing the `id SERIAL PRIMARY KEY` column of the DDL that
`connectDB` in cmd/server/main.go executes at startup
(`CREATE TABLE IF NOT EXISTS books`: title/author `VARCHAR(255)`,
`isbn VARCHAR(13) UNIQUE NOT NULL`, `price DECIMAL(10,2) NOT NULL`). -/
structure Store where
  rows : List Book
  nextId : Int
deriving DecidableEq, Repr

/-- Assignment of a string to a `VARCHAR(n)` column (PostgreSQL
semantics): stored as-is when at most `n` characters; when longer, an
error is raised unless the excess characters are all spaces, in which
case the value is silently truncated to `n` characters. -/
def varcharFit (n : Nat) (s : String) : Option String :=
  if s.length ≤ n then some s
  else if (s.data.drop n).all (fun c => c == ' ') then some ⟨s.data.take n⟩
  else none

/-- Rounding of a rational to the nearest integer, ties away from
zero — how PostgreSQL rounds a value stored into a `numeric` column. -/
def roundHalfAway (q : Rat) : Int :=
  let mag : Nat := (2 * q.num.natAbs + q.den) / (2 * q.den)
  if 0 ≤ q.num then (mag : Int) else -(mag : Int)

/-- Assignment of a number to the `DECIMAL(10,2)` price column: the
value is rounded to two fractional digits; it overflows (an error)
when the rounded value needs more than 10 significant decimal
digits. -/
def decimalFit_10_2 (q : Rat) : Option Rat :=
  let cents : Int := roundHalfAway (q * 100)
  if cents.natAbs < 10 ^ 10 then some ((cents : Rat) / 100) else none

/-- Gateway method `BookRepository.CreateBook`: INSERT ... RETURNING
with one `now` passed for both created_at and updated_at. The store
applies the column constraints of the DDL executed by `connectDB`
(title/author into `VARCHAR(255)`, isbn into `VARCHAR(13)` with the
unique constraint, price into `DECIMAL(10,2)`) and assigns the next
serial identity; any constraint failure makes `Scan` return the
driver's error. On the success path the scanned row — with the stored,
possibly rounded or truncated, column values — is returned. Exactly
one outcome counter labelled `create` is incremented on every path and
the deferred duration observation is emitted last. -/
def createBook (s : Store) (req : CreateBookRequest) (now : Int) :
    Except RepoError Book × Store × List MetricEvent :=
  match varcharFit 255 req.title, varcharFit 255 req.author,
      varcharFit 13 req.isbn, decimalFit_10_2 req.price with
  | some title, some author, some isbn, some price =>
      if s.rows.any (fun r => r.isbn == isbn) then
        (Except.error RepoError.storageError, s,
          [MetricEvent.incTotal Op.create Outcome.error,
           MetricEvent.observeDuration Op.create])
      else
        let b : Book :=
          { id := s.nextId, title := title, author := author,
            isbn := isbn, price := price,
            publishedAt := req.publishedAt, createdAt := now,
            updatedAt := now }
        (Except.ok b, { rows := s.rows ++ [b], nextId := s.nextId + 1 },
          [MetricEvent.incTotal Op.create Outcome.success,
           MetricEvent.observeDuration Op.create])
  | _, _, _, _ =>
      (Except.error RepoError.storageError, s,
        [MetricEvent.incTotal Op.create Outcome.error,
         MetricEvent.observeDuration Op.create])

/-- Gateway method `BookRepository.GetBookByID`: SELECT ... WHERE id = $1; scanning
`sql.ErrNoRows` yields the not-found error and a `not_found` counter,
success yields the row and a `success` counter; the deferred duration
observation labelled `select` is emitted last on every path. -/
def getBookByID (s : Store) (id : Int) :
    Except RepoError Book × List MetricEvent :=
  match s.rows.find? (fun r => r.id == id) with
  | none =>
      (Except.error RepoError.notFound,
        [MetricEvent.incTotal Op.select Outcome.not_found,
         MetricEvent.observeDuration Op.select])
  | some b =>
      (Except.ok b,
        [MetricEvent.incTotal Op.select Outcome.success,
         MetricEvent.observeDuration Op.select])

/-- A Go slice: `none` is the nil slice (which `json.Marshal` renders
as `null`), `some l` a non-nil slice rendering as a JSON array. -/
def GoSlice (α : Type) : Type := Option (List α)

instance : DecidableEq (GoSlice Book) :=
  inferInstanceAs (DecidableEq (Option (List Book)))

/-- Go `append` semantics: appending to a nil slice yields a non-nil slice. -/
def GoSlice.push {α : Type} (s : GoSlice α) (a : α) : GoSlice α :=
  some ((s.getD []) ++ [a])

/-- Row order of `SELECT ... ORDER BY created_at DESC`: most recently
created first. -/
def byCreatedDesc (a b : Book) : Prop := b.createdAt ≤ a.createdAt

instance : DecidableRel byCreatedDesc := fun a b =>
  inferInstanceAs (Decidable (b.createdAt ≤ a.createdAt))

instance : IsTotal Book byCreatedDesc :=
  ⟨fun a b => le_total b.createdAt a.createdAt⟩

instance : IsTrans Book byCreatedDesc :=
  ⟨fun _ _ _ h1 h2 => le_trans h2 h1⟩

/-- Gateway method `BookRepository.GetAllBooks`: SELECT ... ORDER BY created_at DESC,
rows accumulated by `append` into a slice that starts nil, then the
explicit nil-to-empty conversion so JSON serialization yields `[]`
rather than `null`. The pure model cannot fail, so the success counter
labelled `select_all` is always incremented, the deferred duration
observation last. -/
def getAllBooks (s : Store) :
    Except RepoError (GoSlice Book) × List MetricEvent :=
  let sorted := List.insertionSort byCreatedDesc s.rows
  let books : GoSlice Book := sorted.foldl GoSlice.push none
  let books := if books = none then some [] else books
  (Except.ok books,
    [MetricEvent.incTotal Op.select_all Outcome.success,
     MetricEvent.observeDuration Op.select_all])

/-- The read-merge-write of `BookRepository.UpdateBook`: the merge step
overlays exactly the present fields of the request onto the loaded row
and stamps updated_at with `now`; id and created_at are untouched. -/
def mergeBook (b : Book) (req : UpdateBookRequest) (now : Int) : Book :=
  { b with
    title := req.title.getD b.title,
    author := req.author.getD b.author,
    isbn := req.isbn.getD b.isbn,
    price := req.price.getD b.price,
    publishedAt := req.publishedAt.getD b.publishedAt,
    updatedAt := now }

/-- The column assignment of the UPDATE statement
`SET title, author, isbn, price, published_at, updated_at WHERE id`:
created_at is not in the SET list, so each row keeps its own. -/
def setColumns (m : Book) (r : Book) : Book :=
  { r with
    title := m.title, author := m.author, isbn := m.isbn,
    price := m.price, publishedAt := m.publishedAt,
    updatedAt := m.updatedAt }

/-- Gateway method `BookRepository.UpdateBook`: first `GetBookByID` — on its error the
method returns that error before touching the store and before any
`update`-labelled counter increment (only the deferred duration
observation fires) — then the merge, then the UPDATE ... RETURNING whose
scanned row is returned. Events of the inner load come first. -/
def updateBook (s : Store) (id : Int) (req : UpdateBookRequest) (now : Int) :
    Except RepoError Book × Store × List MetricEvent :=
  let loaded := getBookByID s id
  match loaded.1 with
  | Except.error e =>
      (Except.error e, s, loaded.2 ++ [MetricEvent.observeDuration Op.update])
  | Except.ok b =>
      let merged := mergeBook b req now
      let rows := s.rows.map fun r =>
        if r.id == id then setColumns merged r else r
      (Except.ok merged, { s with rows := rows },
        loaded.2 ++
          [MetricEvent.incTotal Op.update Outcome.success,
           MetricEvent.observeDuration Op.update])

/-- Gateway method `BookRepository.DeleteBook`: DELETE ... WHERE id = $1, then the
rows-affected count of the statement (no pre-read) decides the outcome:
zero rows affected yields the not-found error and a `not_found`
counter; otherwise success and a `success` counter; the deferred
duration observation labelled `delete` is last on every path. -/
def deleteBook (s : Store) (id : Int) :
    Except RepoError Unit × Store × List MetricEvent :=
  let remaining := s.rows.filter (fun r => !(r.id == id))
  let rowsAffected := s.rows.length - remaining.length
  if rowsAffected == 0 then
    (Except.error RepoError.notFound, s,
      [MetricEvent.incTotal Op.delete Outcome.not_found,
       MetricEvent.observeDuration Op.delete])
  else
    (Except.ok (), { s with rows := remaining },
      [MetricEvent.incTotal Op.delete Outcome.success,
       MetricEvent.observeDuration Op.delete])

/-- Digit-string value for `strconv.Atoi`: `some` iff the character
list is non-empty and all decimal digits. -/
def parseDigits (cs : List Char) : Option Nat :=
  match cs with
  | [] => none
  | _ =>
      cs.foldl
        (fun acc c =>
          acc.bind fun n =>
            if c.isDigit then some (10 * n + (c.toNat - 48)) else none)
        (some 0)

/-- Go `strconv.Atoi` as used on the `:id` path parameter: an optional
sign followed by one or more digits, nothing else; any other string is
an error (mapped by the handlers to 400). The 64-bit range check is not
modelled — no identifier in scope approaches it. -/
def atoi (s : String) : Option Int :=
  match s.data with
  | '+' :: rest => (parseDigits rest).map fun n => (n : Int)
  | '-' :: rest => (parseDigits rest).map fun n => -(n : Int)
  | cs => (parseDigits cs).map fun n => (n : Int)

/-- A response body written by a handler via `c.JSON`. -/
inductive Body where
  /-- Body `gin.H\x7b"error": <fixed message>\x7d`. -/
  | errorObj (msg : String)
  /-- Body `gin.H\x7b"error": err.Error()\x7d` for a binding/validation
  failure; the validator's message text is not modelled, only the
  single-`error`-field shape. -/
  | bindErrorObj
  /-- A single serialized item. -/
  | bookObj (b : Book)
  /-- A serialized slice of items: JSON `null` when the slice is nil,
  a JSON array otherwise. -/
  | bookArray (books : GoSlice Book)
  /-- Body of `c.JSON(status, nil)`: a JSON `null` payload, which the HTTP
  layer suppresses entirely on a 204 response. -/
  | goNil
deriving DecidableEq

/-- An HTTP response: status code plus JSON body. -/
structure HttpResponse where
  status : Nat
  body : Body
deriving DecidableEq

/-- The `CreateBook` handler, stage after the gateway call: any gateway
error becomes 500 with a fixed message; success becomes 201 with the
created item. -/
def createBookRespond (r : Except RepoError Book) : HttpResponse :=
  match r with
  | Except.error _ => ⟨500, Body.errorObj "Failed to create book"⟩
  | Except.ok b => ⟨201, Body.bookObj b⟩

/-- The `GetBookByID` handler, stage after the gateway call: any gateway
error — not-found or storage failure alike — becomes 404 "Book not
found"; success becomes 200 with the item. -/
def getBookByIDRespond (r : Except RepoError Book) : HttpResponse :=
  match r with
  | Except.error _ => ⟨404, Body.errorObj "Book not found"⟩
  | Except.ok b => ⟨200, Body.bookObj b⟩

/-- The `GetAllBooks` handler, stage after the gateway call: any gateway
error becomes 500; success becomes 200 with the serialized slice. -/
def getAllBooksRespond (r : Except RepoError (GoSlice Book)) : HttpResponse :=
  match r with
  | Except.error _ => ⟨500, Body.errorObj "Failed to retrieve books"⟩
  | Except.ok books => ⟨200, Body.bookArray books⟩

/-- The `UpdateBook` handler, stage after the gateway call: any gateway
error — not-found or storage failure alike — becomes 404 "Book not
found"; success becomes 200 with the merged item. -/
def updateBookRespond (r : Except RepoError Book) : HttpResponse :=
  match r with
  | Except.error _ => ⟨404, Body.errorObj "Book not found"⟩
  | Except.ok b => ⟨200, Body.bookObj b⟩

/-- The `DeleteBook` handler, stage after the gateway call: any gateway
error becomes 404 "Book not found"; success becomes
`c.JSON(http.StatusNoContent, nil)`, a 204 with no payload. -/
def deleteBookRespond (r : Except RepoError Unit) : HttpResponse :=
  match r with
  | Except.error _ => ⟨404, Body.errorObj "Book not found"⟩
  | Except.ok _ => ⟨204, Body.goNil⟩

/-- Handler `BookHandler.CreateBook`: bind-and-validate the body (failure →
400 with the validator's message), then the gateway call and its
status mapping. Returns the response and the resulting store. -/
def handleCreateBook (s : Store) (req : CreateBookRequest) (now : Int) :
    HttpResponse × Store :=
  if !req.bindOK then (⟨400, Body.bindErrorObj⟩, s)
  else
    let r := createBook s req now
    (createBookRespond r.1, r.2.1)

/-- Handler `BookHandler.GetBookByID`: parse the path id (non-integer → 400),
then the gateway call and its status mapping. -/
def handleGetBookByID (s : Store) (idStr : String) : HttpResponse :=
  match atoi idStr with
  | none => ⟨400, Body.errorObj "Invalid book ID"⟩
  | some id => getBookByIDRespond (getBookByID s id).1

/-- Handler `BookHandler.GetAllBooks`: no input; the gateway call and its
status mapping. -/
def handleGetAllBooks (s : Store) : HttpResponse :=
  getAllBooksRespond (getAllBooks s).1

/-- Handler `BookHandler.UpdateBook`: parse the path id (non-integer → 400),
bind the body (given here already decoded; `UpdateBookRequest` carries
no validation tags), then the gateway call and its status mapping.
Returns the response and the resulting store. -/
def handleUpdateBook (s : Store) (idStr : String) (req : UpdateBookRequest)
    (now : Int) : HttpResponse × Store :=
  match atoi idStr with
  | none => (⟨400, Body.errorObj "Invalid book ID"⟩, s)
  | some id =>
      let r := updateBook s id req now
      (updateBookRespond r.1, r.2.1)

/-- Handler `BookHandler.DeleteBook`: parse the path id (non-integer → 400),
then the gateway call and its status mapping. Returns the response and
the resulting store. -/
def handleDeleteBook (s : Store) (idStr : String) : HttpResponse × Store :=
  match atoi idStr with
  | none => (⟨400, Body.errorObj "Invalid book ID"⟩, s)
  | some id =>
      let r := deleteBook s id
      (deleteBookRespond r.1, r.2.1)

/-- An inbound HTTP request as the middleware sees it: method, matched
route template (`c.FullPath()`), and `Content-Length` (`-1` when the
length is unknown, `0` when there is no body). -/
structure HttpRequest where
  method : String
  fullPath : String
  contentLength : Int
deriving DecidableEq, Repr

/-- What the wrapped handler chain produced, as the middleware reads it
after `c.Next()`: the final status (`c.Writer.Status()`) and the bytes
written (`c.Writer.Size()`, which gin keeps at `-1` until something is
written). -/
structure HandlerOutcome where
  status : Nat
  responseSize : Int
deriving DecidableEq, Repr

/-- A metric event emitted by the Prometheus HTTP middleware. -/
inductive HttpEvent where
  /-- Event `http_requests_in_flight.Inc()` on entry. -/
  | incInFlight
  /-- deferred `http_requests_in_flight.Dec()` on exit. -/
  | decInFlight
  /-- Event `http_request_size_bytes\x7bmethod,path\x7d.Observe`. -/
  | observeRequestSize (method path : String) (size : Int)
  /-- Event `http_requests_total\x7bmethod,path,status_code\x7d.Inc()`. -/
  | incRequestsTotal (method path statusCode : String)
  /-- Event `http_request_duration_seconds\x7bmethod,path,status_code\x7d.Observe`. -/
  | observeRequestDuration (method path statusCode : String)
  /-- Event `http_response_size_bytes\x7bmethod,path,status_code\x7d.Observe`. -/
  | observeResponseSize (method path statusCode : String) (size : Int)
deriving DecidableEq, Repr

/-- Middleware `middleware.PrometheusMiddleware`, as the ordered trace of metric
events one request produces: increment the in-flight gauge on entry;
observe the request size only when Content-Length is strictly positive;
run the handler (`c.Next()`); then increment the total-requests counter
and observe the duration, both labelled (method, route template, final
status code); observe the response size only when the bytes written are
strictly positive; the deferred gauge decrement runs last. -/
def prometheusMiddleware (req : HttpRequest) (out : HandlerOutcome) :
    List HttpEvent :=
  [HttpEvent.incInFlight]
    ++ (if req.contentLength > 0 then
          [HttpEvent.observeRequestSize req.method req.fullPath
            req.contentLength]
        else [])
    ++ [HttpEvent.incRequestsTotal req.method req.fullPath
          (toString out.status),
        HttpEvent.observeRequestDuration req.method req.fullPath
          (toString out.status)]
    ++ (if out.responseSize > 0 then
          [HttpEvent.observeResponseSize req.method req.fullPath
            (toString out.status) out.responseSize]
        else [])
    ++ [HttpEvent.decInFlight]

/-- The net effect of a trace on the in-flight gauge: +1 per increment,
-1 per decrement. -/
def gaugeDelta (events : List HttpEvent) : Int :=
  events.foldl
    (fun acc e =>
      match e with
      | HttpEvent.incInFlight => acc + 1
      | HttpEvent.decInFlight => acc - 1
      | _ => acc)
    0

/-- Predicate for a `db_query_total` increment labelled with the given
operation (any outcome). -/
def isOwnCounter (op : Op) (e : MetricEvent) : Bool :=
  match e with
  | MetricEvent.incTotal o _ => o == op
  | _ => false

/-- Predicate for a `db_query_duration_seconds` observation labelled
with the given operation. -/
def isDurationObs (op : Op) (e : MetricEvent) : Bool :=
  match e with
  | MetricEvent.observeDuration o => o == op
  | _ => false

/-- Predicate for an `http_request_size_bytes` observation. -/
def isReqSizeObs (e : HttpEvent) : Bool :=
  match e with
  | HttpEvent.observeRequestSize _ _ _ => true
  | _ => false

/-- Predicate for an `http_response_size_bytes` observation. -/
def isRespSizeObs (e : HttpEvent) : Bool :=
  match e with
  | HttpEvent.observeResponseSize _ _ _ _ => true
  | _ => false

/-- Holds of an event unless it is a size observation of a
non-positive size; the middleware never emits such an observation. -/
def sizeObsPositive (e : HttpEvent) : Bool :=
  match e with
  | HttpEvent.observeRequestSize _ _ n => 0 < n
  | HttpEvent.observeResponseSize _ _ _ n => 0 < n
  | _ => true

/-- Contribution of one event to the in-flight gauge. -/
def gaugeStep (e : HttpEvent) : Int :=
  match e with
  | HttpEvent.incInFlight => 1
  | HttpEvent.decInFlight => -1
  | _ => 0

/-- The empty partial update: a PUT body `\x7b\x7d` with every field
absent. -/
def emptyUpdate : UpdateBookRequest :=
  { title := none, author := none, isbn := none, price := none,
    publishedAt := none }

/-! ## Theorems -/

/-- C1: for every update request with a well-formed integer id and
well-formed body, any error from the gateway's `UpdateBook` — not-found
or generic storage failure alike — yields a 404 response with body
`\x7b"error": "Book not found"\x7d`; gateway success yields 200 with
the merged item, the update handler being exactly the composition of
the gateway call with this status mapping. -/
theorem update_handler_maps_every_gateway_error_to_404 :
    (∀ e : RepoError,
      updateBookRespond (Except.error e)
        = ⟨404, Body.errorObj "Book not found"⟩)
    ∧ (∀ b : Book, updateBookRespond (Except.ok b) = ⟨200, Body.bookObj b⟩)
    ∧ ∀ (s : Store) (idStr : String) (id : Int) (req : UpdateBookRequest)
        (now : Int),
        atoi idStr = some id →
        handleUpdateBook s idStr req now
          = (updateBookRespond (updateBook s id req now).1,
             (updateBook s id req now).2.1) := by
  refine ⟨fun e => rfl, fun b => rfl, fun s idStr id req now h => ?_⟩
  simp [handleUpdateBook, h]

/-- Witness for C1 at the store with no rows, id string "1" and the
empty partial body. -/
theorem update_handler_maps_every_gateway_error_to_404_witness :
    updateBookRespond (Except.error RepoError.storageError)
        = ⟨404, Body.errorObj "Book not found"⟩
    ∧ atoi "1" = some 1
    ∧ handleUpdateBook ⟨[], 1⟩ "1" emptyUpdate 5
        = (updateBookRespond (updateBook ⟨[], 1⟩ 1 emptyUpdate 5).1,
           (updateBook ⟨[], 1⟩ 1 emptyUpdate 5).2.1) :=
  ⟨update_handler_maps_every_gateway_error_to_404.1 RepoError.storageError,
   by decide,
   update_handler_maps_every_gateway_error_to_404.2.2
     ⟨[], 1⟩ "1" 1 emptyUpdate 5 (by decide)⟩

/-- C4 counterexample: the claim says a storage failure reaching the
Get-by-ID handler is surfaced as 500, never 404; in the code the
Get-by-ID handler maps every gateway error — storage failure
included — to 404, so the response status at a storage error is 404
and not 500. -/
theorem getById_storage_error_yields_404_not_500 :
    (getBookByIDRespond (Except.error RepoError.storageError)).status = 404
    ∧ ¬ (getBookByIDRespond
          (Except.error RepoError.storageError)).status = 500 := by
  exact ⟨rfl, by decide⟩

/-- C4 amended: the gateway distinguishes not-found from other
outcomes (`GetBookByID` yields the not-found error exactly when no row
has the identity), and storage errors outside Update are surfaced as
500 by the Create and Get-all handlers — but the Get-by-ID handler,
like Update, collapses every gateway failure (storage errors included)
into the 404 path. -/
theorem gateway_error_taxonomy_and_status_mapping :
    ∀ (s : Store) (id : Int) (e : RepoError),
      ((getBookByID s id).1 = Except.error RepoError.notFound ↔
        s.rows.find? (fun r => r.id == id) = none)
      ∧ createBookRespond (Except.error e)
          = ⟨500, Body.errorObj "Failed to create book"⟩
      ∧ getAllBooksRespond (Except.error e)
          = ⟨500, Body.errorObj "Failed to retrieve books"⟩
      ∧ getBookByIDRespond (Except.error e)
          = ⟨404, Body.errorObj "Book not found"⟩ := by
  intro s id e
  refine ⟨?_, rfl, rfl, rfl⟩
  unfold getBookByID
  cases h : s.rows.find? (fun r => r.id == id) <;> simp [h]

/-- C3 counterexample: the claim says a create request with all fields
present and price exactly 0 passes validation and is forwarded to the
gateway; under the `binding:"required,min=0"` tag the validator rejects
the zero value of a float64, so such a request fails validation and the
handler answers 400 without touching the store. -/
theorem create_zero_price_fails_validation :
    CreateBookRequest.bindOK
        { title := "A", author := "B", isbn := "C", price := 0,
          publishedAt := 1 } = false
    ∧ (handleCreateBook ⟨[], 1⟩
        { title := "A", author := "B", isbn := "C", price := 0,
          publishedAt := 1 } 5).1.status = 400
    ∧ (handleCreateBook ⟨[], 1⟩
        { title := "A", author := "B", isbn := "C", price := 0,
          publishedAt := 1 } 5).2 = ⟨[], 1⟩ := by
  decide

/-- C3 amended: validation of a create request succeeds exactly when
title, author, external identifier and published-at are present
(non-zero) and the price is strictly positive — the `required` binding
rejects a zero price, so zero joins the negative prices in the 400
path — and on validation success the request is forwarded to the
gateway, the handler being the composition of the gateway call with
its status mapping. -/
theorem create_validation_characterization :
    ∀ (r : CreateBookRequest) (s : Store) (now : Int),
      (r.bindOK = true ↔
        (r.title ≠ "" ∧ r.author ≠ "" ∧ r.isbn ≠ "" ∧ 0 < r.price
          ∧ r.publishedAt ≠ 0))
      ∧ (r.bindOK = false →
          handleCreateBook s r now = (⟨400, Body.bindErrorObj⟩, s))
      ∧ (r.bindOK = true →
          handleCreateBook s r now
            = (createBookRespond (createBook s r now).1,
               (createBook s r now).2.1)) := by
  intro r s now
  refine ⟨?_, fun h => by simp [handleCreateBook, h],
    fun h => by simp [handleCreateBook, h]⟩
  unfold CreateBookRequest.bindOK
  simp only [Bool.and_eq_true, bne_iff_ne, ne_eq, decide_eq_true_eq]
  constructor
  · rintro ⟨⟨⟨⟨ht, ha⟩, hi⟩, ⟨hp0, hple⟩⟩, hpub⟩
    exact ⟨ht, ha, hi, lt_of_le_of_ne hple (fun h => hp0 h.symm), hpub⟩
  · rintro ⟨ht, ha, hi, hp, hpub⟩
    exact ⟨⟨⟨⟨ht, ha⟩, hi⟩, ⟨ne_of_gt hp, le_of_lt hp⟩⟩, hpub⟩

/-- Witness for C3's amended theorem: a fully populated request with a
positive price passes validation and reaches the gateway; a request
with a missing title is answered 400. -/
theorem create_validation_characterization_witness :
    CreateBookRequest.bindOK
        { title := "A", author := "B", isbn := "C", price := 1,
          publishedAt := 2 } = true
    ∧ handleCreateBook ⟨[], 1⟩
        { title := "A", author := "B", isbn := "C", price := 1,
          publishedAt := 2 } 5
        = (createBookRespond
            (createBook ⟨[], 1⟩
              { title := "A", author := "B", isbn := "C", price := 1,
                publishedAt := 2 } 5).1,
           (createBook ⟨[], 1⟩
              { title := "A", author := "B", isbn := "C", price := 1,
                publishedAt := 2 } 5).2.1)
    ∧ handleCreateBook ⟨[], 1⟩
        { title := "", author := "B", isbn := "C", price := 1,
          publishedAt := 2 } 5
        = (⟨400, Body.bindErrorObj⟩, ⟨[], 1⟩) :=
  ⟨by decide,
   (create_validation_characterization
      { title := "A", author := "B", isbn := "C", price := 1,
        publishedAt := 2 } ⟨[], 1⟩ 5).2.2 (by decide),
   (create_validation_characterization
      { title := "", author := "B", isbn := "C", price := 1,
        publishedAt := 2 } ⟨[], 1⟩ 5).2.1 (by decide)⟩

/-- C2: `UpdateBook` first loads the existing item — when the id is
absent it returns the not-found error and performs no write — then
overlays exactly the present fields of the partial onto the loaded
item, stamps updated-at with the fresh timestamp while never touching
id or created-at, and persists the merged row; an empty partial leaves
every business field unchanged and still advances updated-at strictly
whenever the fresh timestamp is later than the stored one. -/
theorem updateBook_read_merge_write (s : Store) (id : Int)
    (req : UpdateBookRequest) (now : Int) :
    (s.rows.find? (fun r => r.id == id) = none →
      (updateBook s id req now).1 = Except.error RepoError.notFound
      ∧ (updateBook s id req now).2.1 = s)
    ∧ ∀ b : Book, s.rows.find? (fun r => r.id == id) = some b →
        (updateBook s id req now).1 = Except.ok (mergeBook b req now)
        ∧ (updateBook s id req now).2.1.rows
            = s.rows.map
                (fun r =>
                  if r.id == id then setColumns (mergeBook b req now) r else r)
        ∧ (mergeBook b req now).id = b.id
        ∧ (mergeBook b req now).createdAt = b.createdAt
        ∧ (mergeBook b req now).updatedAt = now
        ∧ (mergeBook b req now).title = req.title.getD b.title
        ∧ (mergeBook b req now).author = req.author.getD b.author
        ∧ (mergeBook b req now).isbn = req.isbn.getD b.isbn
        ∧ (mergeBook b req now).price = req.price.getD b.price
        ∧ (mergeBook b req now).publishedAt = req.publishedAt.getD b.publishedAt
        ∧ mergeBook b emptyUpdate now = { b with updatedAt := now }
        ∧ (b.updatedAt < now → b.updatedAt < (mergeBook b req now).updatedAt) := by
  constructor
  · intro h
    simp only [updateBook, getBookByID]
    rw [h]
    exact ⟨rfl, rfl⟩
  · intro b h
    simp only [updateBook, getBookByID]
    rw [h]
    refine ⟨rfl, rfl, rfl, rfl, rfl, rfl, rfl, rfl, rfl, rfl, rfl, ?_⟩
    intro hlt
    simpa [mergeBook] using hlt

/-- Witness for C2: the absent-id branch on the empty store, and the
merge branch on a one-row store with a title-only partial. -/
theorem updateBook_read_merge_write_witness :
    ((updateBook ⟨[], 1⟩ 2 emptyUpdate 5).1 = Except.error RepoError.notFound
      ∧ (updateBook ⟨[], 1⟩ 2 emptyUpdate 5).2.1 = ⟨[], 1⟩)
    ∧ (updateBook ⟨[⟨1, "A", "B", "C", 1, 2, 3, 3⟩], 2⟩ 1
          ⟨some "T", none, none, none, none⟩ 9).1
        = Except.ok (mergeBook ⟨1, "A", "B", "C", 1, 2, 3, 3⟩
            ⟨some "T", none, none, none, none⟩ 9) :=
  ⟨(updateBook_read_merge_write ⟨[], 1⟩ 2 emptyUpdate 5).1 (by decide),
   ((updateBook_read_merge_write ⟨[⟨1, "A", "B", "C", 1, 2, 3, 3⟩], 2⟩ 1
        ⟨some "T", none, none, none, none⟩ 9).2
      ⟨1, "A", "B", "C", 1, 2, 3, 3⟩ (by decide)).1⟩

/-- Accumulating rows with Go `append` starting from a non-nil slice
concatenates. -/
theorem foldl_push_some (l acc : List Book) :
    l.foldl GoSlice.push (some acc) = some (acc ++ l) := by
  induction l generalizing acc with
  | nil => simp
  | cons b t ih => simp [GoSlice.push, ih]

/-- Accumulating rows with Go `append` starting from the nil slice
yields the nil slice only for the empty row list. -/
theorem foldl_push_none (l : List Book) :
    l.foldl GoSlice.push none = if l = [] then none else some l := by
  cases l with
  | nil => rfl
  | cons b t => simp [GoSlice.push, foldl_push_some]

/-- C5: `GetAllBooks` succeeds with a non-nil slice whose list holds
all stored items (a permutation of the rows) ordered by creation time
most recent first; an empty store yields the empty — never nil —
slice, and the Get-all handler serializes it with status 200 as a JSON
array, never `null`. -/
theorem getAllBooks_sorted_and_never_null (s : Store) :
    (getAllBooks s).1
        = Except.ok (some (List.insertionSort byCreatedDesc s.rows))
    ∧ List.Perm (List.insertionSort byCreatedDesc s.rows) s.rows
    ∧ List.Sorted byCreatedDesc (List.insertionSort byCreatedDesc s.rows)
    ∧ (s.rows = [] → List.insertionSort byCreatedDesc s.rows = [])
    ∧ handleGetAllBooks s
        = ⟨200, Body.bookArray (some (List.insertionSort byCreatedDesc s.rows))⟩ := by
  have h1 : (getAllBooks s).1
      = Except.ok (some (List.insertionSort byCreatedDesc s.rows)) := by
    by_cases h : List.insertionSort byCreatedDesc s.rows = [] <;>
      simp [getAllBooks, foldl_push_none, h]
  refine ⟨h1, List.perm_insertionSort _ _, List.sorted_insertionSort _ _,
    fun h => by simp [h], ?_⟩
  unfold handleGetAllBooks
  rw [h1]
  rfl

/-- Witness for C5 on the empty store: the gateway yields the empty —
non-nil — slice and the handler answers 200 with an empty JSON
array. -/
theorem getAllBooks_sorted_and_never_null_witness :
    List.insertionSort byCreatedDesc ([] : List Book) = []
    ∧ (getAllBooks ⟨[], 1⟩).1 = Except.ok (some [])
    ∧ handleGetAllBooks ⟨[], 1⟩ = ⟨200, Body.bookArray (some [])⟩ :=
  ⟨(getAllBooks_sorted_and_never_null ⟨[], 1⟩).2.2.2.1 rfl,
   (getAllBooks_sorted_and_never_null ⟨[], 1⟩).1,
   (getAllBooks_sorted_and_never_null ⟨[], 1⟩).2.2.2.2⟩

/-- C6 counterexample: the claim says every valid create request with
a fresh external identifier returns the persisted row with all
supplied fields echoed verbatim. Against the table's DDL this fails
twice: a request whose fresh ISBN has 14 characters passes the
handler's binding validation yet `CreateBook` errors on the
`VARCHAR(13)` column instead of succeeding, and a request with price
1.001 succeeds but returns the `DECIMAL(10,2)`-rounded price 1, not
the supplied value. -/
theorem createBook_ddl_bounds_break_verbatim_echo :
    CreateBookRequest.bindOK
        { title := "A", author := "B", isbn := "12345678901234",
          price := 1, publishedAt := 2 } = true
    ∧ (createBook ⟨[], 1⟩
        { title := "A", author := "B", isbn := "12345678901234",
          price := 1, publishedAt := 2 } 5).1
        = Except.error RepoError.storageError
    ∧ (createBook ⟨[], 1⟩
        { title := "A", author := "B", isbn := "C",
          price := 1001 / 1000, publishedAt := 2 } 5).1
        = Except.ok ⟨1, "A", "B", "C", 1, 2, 5, 5⟩
    ∧ ((1001 : Rat) / 1000 ≠ 1) := by
  have h1 : varcharFit 255 "A" = some "A" := by decide
  have h2 : varcharFit 255 "B" = some "B" := by decide
  have h3 : varcharFit 13 "12345678901234" = none := by decide
  have h4 : varcharFit 13 "C" = some "C" := by decide
  have h5 : decimalFit_10_2 (1001 / 1000) = some 1 := by
    norm_num [decimalFit_10_2, roundHalfAway]
  refine ⟨by decide, ?_, ?_, by norm_num⟩
  · simp [createBook, h1, h2, h3]
  · simp [createBook, h1, h2, h4, h5]

/-- C6 amended: for a create request whose fields fit the table's
column types — title and author at most 255 characters, external
identifier at most 13 characters, price already representable in
`DECIMAL(10,2)` — and whose external identifier is fresh, `CreateBook`
succeeds and the returned item is exactly the persisted row: identity
assigned from the store's serial counter (which then advances),
created-at and updated-at both stamped from the one timestamp taken at
creation, and every caller-supplied field echoed verbatim; outside
those bounds the insert errors (over-length columns) or returns the
rounded rather than the supplied price. -/
theorem createBook_fresh_fitting_success (s : Store)
    (req : CreateBookRequest) (now : Int)
    (ht : req.title.length ≤ 255) (ha : req.author.length ≤ 255)
    (hi : req.isbn.length ≤ 13)
    (hp : decimalFit_10_2 req.price = some req.price)
    (hfresh : s.rows.any (fun r => r.isbn == req.isbn) = false) :
    (createBook s req now).1
      = Except.ok { id := s.nextId, title := req.title, author := req.author,
                    isbn := req.isbn, price := req.price,
                    publishedAt := req.publishedAt,
                    createdAt := now, updatedAt := now }
    ∧ (createBook s req now).2.1
      = { rows := s.rows ++
            [{ id := s.nextId, title := req.title, author := req.author,
               isbn := req.isbn, price := req.price,
               publishedAt := req.publishedAt,
               createdAt := now, updatedAt := now }],
          nextId := s.nextId + 1 } := by
  have h1 : varcharFit 255 req.title = some req.title := by
    simp [varcharFit, ht]
  have h2 : varcharFit 255 req.author = some req.author := by
    simp [varcharFit, ha]
  have h3 : varcharFit 13 req.isbn = some req.isbn := by
    simp [varcharFit, hi]
  simp only [createBook, h1, h2, h3, hp]
  rw [hfresh]
  exact ⟨rfl, rfl⟩

/-- Witness for C6's amended theorem on the empty store: a fitting
request yields the persisted row with identity 1 and the single
creation timestamp in both created-at and updated-at. -/
theorem createBook_fresh_fitting_success_witness :
    (createBook ⟨[], 1⟩ ⟨"A", "B", "C", 1, 2⟩ 5).1
      = Except.ok ⟨1, "A", "B", "C", 1, 2, 5, 5⟩ :=
  (createBook_fresh_fitting_success ⟨[], 1⟩ ⟨"A", "B", "C", 1, 2⟩ 5
    (by decide) (by decide) (by decide)
    (by norm_num [decimalFit_10_2, roundHalfAway]) (by decide)).1

/-- The rows-affected count of `DELETE ... WHERE id = $1` is zero
exactly when no row has the identity. -/
theorem rowsAffected_zero_iff (rows : List Book) (id : Int) :
    (rows.length - (rows.filter (fun r => !(r.id == id))).length = 0)
      ↔ rows.find? (fun r => r.id == id) = none := by
  induction rows with
  | nil => simp
  | cons b t ih =>
      by_cases h : (b.id == id) = true
      · have hle := List.length_filter_le (fun r => !(r.id == id)) t
        simp [List.find?_cons, h, List.filter_cons]
        omega
      · have h2 : (b.id == id) = false := by simpa using h
        simp [List.find?_cons, h2, List.filter_cons, Nat.succ_sub_succ, ih]

/-- Behaviour of `DeleteBook` when no row has the identity: zero rows affected, so
the not-found error, an untouched store, and the not-found counter. -/
theorem deleteBook_of_find_none (s : Store) (id : Int)
    (h : s.rows.find? (fun r => r.id == id) = none) :
    deleteBook s id
      = (Except.error RepoError.notFound, s,
         [MetricEvent.incTotal Op.delete Outcome.not_found,
          MetricEvent.observeDuration Op.delete]) := by
  have h0 : s.rows.length
      - (s.rows.filter (fun r => !(r.id == id))).length = 0 :=
    (rowsAffected_zero_iff s.rows id).2 h
  simp only [deleteBook]
  rw [h0]
  rfl

/-- Behaviour of `DeleteBook` when some row has the identity: a positive
rows-affected count, so success, the matching rows removed, and the
success counter. -/
theorem deleteBook_of_find_some (s : Store) (id : Int)
    (h : s.rows.find? (fun r => r.id == id) ≠ none) :
    deleteBook s id
      = (Except.ok (),
         { rows := s.rows.filter (fun r => !(r.id == id)),
           nextId := s.nextId },
         [MetricEvent.incTotal Op.delete Outcome.success,
          MetricEvent.observeDuration Op.delete]) := by
  have h1 : ¬ (s.rows.length
      - (s.rows.filter (fun r => !(r.id == id))).length = 0) :=
    fun hc => h ((rowsAffected_zero_iff s.rows id).1 hc)
  have h2 : (s.rows.length
      - (s.rows.filter (fun r => !(r.id == id))).length == 0) = false := by
    simpa using h1
  simp only [deleteBook]
  rw [h2]
  rfl

/-- C7: `DeleteBook` decides not-found from the rows-affected count of
the delete statement: zero rows affected — exactly the case where no
row has the identity, so also for an already-deleted identity — yields
the not-found error, leaves the store untouched and maps to a 404
response; a positive count yields success with the row(s) removed,
which the handler maps to 204 with no payload, and deleting the same
identity again then fails with not-found. -/
theorem deleteBook_decided_by_rows_affected (s : Store) (id : Int) :
    (s.rows.find? (fun r => r.id == id) = none →
      (deleteBook s id).1 = Except.error RepoError.notFound
      ∧ (deleteBook s id).2.1 = s
      ∧ deleteBookRespond (deleteBook s id).1
          = ⟨404, Body.errorObj "Book not found"⟩)
    ∧ (s.rows.find? (fun r => r.id == id) ≠ none →
      (deleteBook s id).1 = Except.ok ()
      ∧ (deleteBook s id).2.1.rows = s.rows.filter (fun r => !(r.id == id))
      ∧ deleteBookRespond (deleteBook s id).1 = ⟨204, Body.goNil⟩
      ∧ (deleteBook (deleteBook s id).2.1 id).1
          = Except.error RepoError.notFound) := by
  have hnone : (s.rows.filter (fun r => !(r.id == id))).find?
      (fun r => r.id == id) = none := by
    rw [List.find?_eq_none]
    intro x hx
    have hmem := (List.mem_filter.1 hx).2
    simpa using hmem
  constructor
  · intro h
    rw [deleteBook_of_find_none s id h]
    exact ⟨rfl, rfl, rfl⟩
  · intro h
    rw [deleteBook_of_find_some s id h]
    refine ⟨rfl, rfl, rfl, ?_⟩
    rw [deleteBook_of_find_none
      { rows := s.rows.filter (fun r => !(r.id == id)), nextId := s.nextId }
      id hnone]

/-- Witness for C7: deleting from the empty store fails not-found; a
present row deletes to 204 semantics and deleting it again fails
not-found. -/
theorem deleteBook_decided_by_rows_affected_witness :
    (deleteBook ⟨[], 1⟩ 1).1 = Except.error RepoError.notFound
    ∧ (deleteBook ⟨[⟨1, "A", "B", "C", 1, 2, 3, 3⟩], 2⟩ 1).1 = Except.ok ()
    ∧ deleteBookRespond (deleteBook ⟨[⟨1, "A", "B", "C", 1, 2, 3, 3⟩], 2⟩ 1).1
        = ⟨204, Body.goNil⟩
    ∧ (deleteBook (deleteBook ⟨[⟨1, "A", "B", "C", 1, 2, 3, 3⟩], 2⟩ 1).2.1 1).1
        = Except.error RepoError.notFound :=
  ⟨((deleteBook_decided_by_rows_affected ⟨[], 1⟩ 1).1 (by decide)).1,
   ((deleteBook_decided_by_rows_affected
      ⟨[⟨1, "A", "B", "C", 1, 2, 3, 3⟩], 2⟩ 1).2 (by decide)).1,
   ((deleteBook_decided_by_rows_affected
      ⟨[⟨1, "A", "B", "C", 1, 2, 3, 3⟩], 2⟩ 1).2 (by decide)).2.2.1,
   ((deleteBook_decided_by_rows_affected
      ⟨[⟨1, "A", "B", "C", 1, 2, 3, 3⟩], 2⟩ 1).2 (by decide)).2.2.2⟩

/-- The metric events of a `CreateBook` call: whatever branch the
column constraints and the uniqueness check select, exactly one
create-labelled counter fires followed by the deferred duration
observation. -/
theorem createBook_events (s : Store) (req : CreateBookRequest) (now : Int) :
    (createBook s req now).2.2
        = [MetricEvent.incTotal Op.create Outcome.error,
           MetricEvent.observeDuration Op.create]
    ∨ (createBook s req now).2.2
        = [MetricEvent.incTotal Op.create Outcome.success,
           MetricEvent.observeDuration Op.create] := by
  cases h1 : varcharFit 255 req.title with
  | none => left; simp [createBook, h1]
  | some title =>
      cases h2 : varcharFit 255 req.author with
      | none => left; simp [createBook, h1, h2]
      | some author =>
          cases h3 : varcharFit 13 req.isbn with
          | none => left; simp [createBook, h1, h2, h3]
          | some isbn =>
              cases h4 : decimalFit_10_2 req.price with
              | none => left; simp [createBook, h1, h2, h3, h4]
              | some price =>
                  by_cases h5 : s.rows.any (fun r => r.isbn == isbn) = true
                  · left; simp [createBook, h1, h2, h3, h4, h5]
                  · right; simp [createBook, h1, h2, h3, h4, h5]

/-- The metric events of a `GetBookByID` call, by branch. -/
theorem getBookByID_events (s : Store) (id : Int) :
    (getBookByID s id).2
      = if (s.rows.find? (fun r => r.id == id)).isSome then
          [MetricEvent.incTotal Op.select Outcome.success,
           MetricEvent.observeDuration Op.select]
        else
          [MetricEvent.incTotal Op.select Outcome.not_found,
           MetricEvent.observeDuration Op.select] := by
  cases h : s.rows.find? (fun r => r.id == id) <;> simp [getBookByID, h]

/-- The metric events of a `GetAllBooks` call. -/
theorem getAllBooks_events (s : Store) :
    (getAllBooks s).2
      = [MetricEvent.incTotal Op.select_all Outcome.success,
         MetricEvent.observeDuration Op.select_all] := rfl

/-- The metric events of a `DeleteBook` call, by branch. -/
theorem deleteBook_events (s : Store) (id : Int) :
    (deleteBook s id).2.2
      = if (s.rows.find? (fun r => r.id == id)).isSome then
          [MetricEvent.incTotal Op.delete Outcome.success,
           MetricEvent.observeDuration Op.delete]
        else
          [MetricEvent.incTotal Op.delete Outcome.not_found,
           MetricEvent.observeDuration Op.delete] := by
  cases h : s.rows.find? (fun r => r.id == id) with
  | none => rw [deleteBook_of_find_none s id h]; simp
  | some b =>
      rw [deleteBook_of_find_some s id (by rw [h]; exact Option.some_ne_none b)]
      simp [h]

/-- The metric events of an `UpdateBook` call: the inner load's events
first, then — only when the load succeeded — the update-labelled
counter, then the deferred update-labelled duration observation. -/
theorem updateBook_events (s : Store) (id : Int) (req : UpdateBookRequest)
    (now : Int) :
    (updateBook s id req now).2.2
      = (getBookByID s id).2
          ++ (if (s.rows.find? (fun r => r.id == id)).isSome then
                [MetricEvent.incTotal Op.update Outcome.success,
                 MetricEvent.observeDuration Op.update]
              else
                [MetricEvent.observeDuration Op.update]) := by
  cases h : s.rows.find? (fun r => r.id == id) <;>
    simp [updateBook, getBookByID, h]

/-- C8 counterexample: the claim says an `UpdateBook` call that fails
because the id is absent still increments an update-labelled outcome
counter; on the empty store such a call emits the inner select-labelled
not-found counter and the two duration observations, but no
update-labelled `db_query_total` increment at all. -/
theorem updateBook_absent_id_increments_no_update_counter :
    (updateBook ⟨[], 1⟩ 1 emptyUpdate 5).1 = Except.error RepoError.notFound
    ∧ (updateBook ⟨[], 1⟩ 1 emptyUpdate 5).2.2.countP
        (isOwnCounter Op.update) = 0
    ∧ (updateBook ⟨[], 1⟩ 1 emptyUpdate 5).2.2.countP
        (isDurationObs Op.update) = 1
    ∧ (updateBook ⟨[], 1⟩ 1 emptyUpdate 5).2.2
        = [MetricEvent.incTotal Op.select Outcome.not_found,
           MetricEvent.observeDuration Op.select,
           MetricEvent.observeDuration Op.update] :=
  ⟨rfl, by decide, by decide, rfl⟩

/-- C8 amended: every gateway method observes its elapsed duration
into the query-duration histogram under its own operation label on
every call and outcome, and increments exactly one outcome-labelled
counter keyed by its own operation — except that an `UpdateBook` call
whose preliminary load fails increments no update-labelled counter
(only the inner select-labelled one fires). -/
theorem repo_metrics_discipline (s : Store) (req : CreateBookRequest)
    (ureq : UpdateBookRequest) (id now : Int) :
    ((createBook s req now).2.2.countP (isDurationObs Op.create) = 1
      ∧ (createBook s req now).2.2.countP (isOwnCounter Op.create) = 1)
    ∧ ((getBookByID s id).2.countP (isDurationObs Op.select) = 1
      ∧ (getBookByID s id).2.countP (isOwnCounter Op.select) = 1)
    ∧ ((getAllBooks s).2.countP (isDurationObs Op.select_all) = 1
      ∧ (getAllBooks s).2.countP (isOwnCounter Op.select_all) = 1)
    ∧ ((deleteBook s id).2.2.countP (isDurationObs Op.delete) = 1
      ∧ (deleteBook s id).2.2.countP (isOwnCounter Op.delete) = 1)
    ∧ ((updateBook s id ureq now).2.2.countP (isDurationObs Op.update) = 1
      ∧ (updateBook s id ureq now).2.2.countP (isOwnCounter Op.update)
          = (if (s.rows.find? (fun r => r.id == id)).isSome
              then 1 else 0)) := by
  have hc := createBook_events s req now
  rw [getBookByID_events, getAllBooks_events,
    deleteBook_events, updateBook_events, getBookByID_events]
  refine ⟨⟨?_, ?_⟩, ⟨?_, ?_⟩, ⟨?_, ?_⟩, ⟨?_, ?_⟩, ⟨?_, ?_⟩⟩ <;>
    first
      | (rcases hc with h | h <;> rw [h] <;> decide)
      | (split_ifs <;> decide)
      | decide

/-- The net gauge effect of a trace is the sum of the per-event
contributions. -/
theorem gaugeDelta_eq_sum (l : List HttpEvent) :
    gaugeDelta l = (l.map gaugeStep).sum := by
  have key : ∀ (t : List HttpEvent) (a : Int),
      t.foldl
        (fun acc e =>
          match e with
          | HttpEvent.incInFlight => acc + 1
          | HttpEvent.decInFlight => acc - 1
          | _ => acc) a
        = a + (t.map gaugeStep).sum := by
    intro t
    induction t with
    | nil => intro a; simp
    | cons e t ih =>
        intro a
        cases e <;>
          simp only [List.foldl_cons, List.map_cons, List.sum_cons, gaugeStep] <;>
          rw [ih] <;> ring
  simpa [gaugeDelta] using key l 0

/-- The net gauge effect of concatenated traces is additive. -/
theorem gaugeDelta_append (l1 l2 : List HttpEvent) :
    gaugeDelta (l1 ++ l2) = gaugeDelta l1 + gaugeDelta l2 := by
  simp [gaugeDelta_eq_sum]

/-- One request's middleware trace leaves the in-flight gauge where it
started. -/
theorem gaugeDelta_middleware (req : HttpRequest) (out : HandlerOutcome) :
    gaugeDelta (prometheusMiddleware req out) = 0 := by
  by_cases h1 : req.contentLength > 0 <;> by_cases h2 : out.responseSize > 0 <;>
    simp [prometheusMiddleware, h1, h2, gaugeDelta_eq_sum, gaugeStep]

/-- C9: every request's middleware trace — whatever the route and the
handler's outcome — increments the in-flight gauge first and
(deferred) decrements it last, each exactly once, so any batch of
completed requests leaves the gauge at its prior value; and the trace
always carries exactly one total-requests increment and one duration
observation, both labelled (method, route template, final status
code). -/
theorem middleware_in_flight_and_exit_metrics (req : HttpRequest)
    (out : HandlerOutcome) :
    (prometheusMiddleware req out).head? = some HttpEvent.incInFlight
    ∧ (prometheusMiddleware req out).getLast? = some HttpEvent.decInFlight
    ∧ (prometheusMiddleware req out).count HttpEvent.incInFlight = 1
    ∧ (prometheusMiddleware req out).count HttpEvent.decInFlight = 1
    ∧ gaugeDelta (prometheusMiddleware req out) = 0
    ∧ (prometheusMiddleware req out).count
        (HttpEvent.incRequestsTotal req.method req.fullPath
          (toString out.status)) = 1
    ∧ (prometheusMiddleware req out).count
        (HttpEvent.observeRequestDuration req.method req.fullPath
          (toString out.status)) = 1
    ∧ ∀ batch : List (HttpRequest × HandlerOutcome),
        gaugeDelta
          ((batch.map fun p => prometheusMiddleware p.1 p.2).flatten) = 0 := by
  refine ⟨?_, ?_, ?_, ?_, gaugeDelta_middleware req out, ?_, ?_, ?_⟩
  · simp [prometheusMiddleware]
  · unfold prometheusMiddleware
    rw [List.getLast?_append_of_ne_nil _ (List.cons_ne_nil _ _)]
    rfl
  · by_cases h1 : req.contentLength > 0 <;>
      by_cases h2 : out.responseSize > 0 <;>
      simp [prometheusMiddleware, h1, h2]
  · by_cases h1 : req.contentLength > 0 <;>
      by_cases h2 : out.responseSize > 0 <;>
      simp [prometheusMiddleware, h1, h2]
  · by_cases h1 : req.contentLength > 0 <;>
      by_cases h2 : out.responseSize > 0 <;>
      simp [prometheusMiddleware, h1, h2]
  · by_cases h1 : req.contentLength > 0 <;>
      by_cases h2 : out.responseSize > 0 <;>
      simp [prometheusMiddleware, h1, h2]
  · intro batch
    induction batch with
    | nil => rfl
    | cons p t ih =>
        simp [gaugeDelta_append, gaugeDelta_middleware, ih]

/-- C10: the middleware observes the request-size histogram exactly
once when Content-Length is strictly positive and not at all otherwise,
observes the response-size histogram exactly once when the bytes
written are strictly positive and not at all otherwise, and never
emits a size observation that is not strictly positive. -/
theorem middleware_size_observations (req : HttpRequest)
    (out : HandlerOutcome) :
    (prometheusMiddleware req out).countP isReqSizeObs
        = (if req.contentLength > 0 then 1 else 0)
    ∧ (prometheusMiddleware req out).countP isRespSizeObs
        = (if out.responseSize > 0 then 1 else 0)
    ∧ (prometheusMiddleware req out).all sizeObsPositive = true := by
  by_cases h1 : req.contentLength > 0 <;> by_cases h2 : out.responseSize > 0 <;>
    simp [prometheusMiddleware, h1, h2, isReqSizeObs, isRespSizeObs,
      sizeObsPositive]

end Bookstore
